import Mathlib

/-!
Shallow embedding of the real-time speech translation system: the
configuration store (src/config/settings.py), the model manager
(src/models/model_manager.py), the incremental translation strategy
(src/modules/translator.py), the audio-capture ASR buffer processing
(src/modules/audio_capture.py), the text-to-speech module
(src/modules/text_to_speech.py) and the pipeline coordinator
(src/modules/pipeline.py), together with theorems settling the
specification's claims against the embedded code.

Modelling conventions: Python strings are Lean `String`s, with scanning
and slicing carried out on the underlying `List Char`; Python dicts used
as keyed tables are association lists; calls into external libraries
(FunASR / Transformers model inference, Edge-TTS synthesis, pygame
playback, sounddevice streams) are modelled by oracle parameters that
supply the outcome of each external call.
-/

namespace RS

/-! ## Configuration store (src/config/settings.py) -/

/-- Embeds `ModelConfig.__post_init__`: the default eight-entry translation-model table. -/
def defaultTranslationModels : List (String × String) :=
  [("zh-en", "Helsinki-NLP/opus-mt-zh-en"),
   ("en-zh", "Helsinki-NLP/opus-mt-en-zh"),
   ("zh-ja", "Helsinki-NLP/opus-mt-zh-ja"),
   ("ja-zh", "Helsinki-NLP/opus-mt-ja-zh"),
   ("en-ja", "Helsinki-NLP/opus-mt-en-ja"),
   ("ja-en", "Helsinki-NLP/opus-mt-ja-en"),
   ("zh-ko", "Helsinki-NLP/opus-mt-zh-ko"),
   ("ko-zh", "Helsinki-NLP/opus-mt-ko-zh")]

/-- Embeds `SystemConfig.__init__`: the language → TTS-voice table. -/
def defaultTTSVoices : List (String × String) :=
  [("en", "en-US-AriaNeural"),
   ("zh", "zh-CN-XiaoxiaoNeural"),
   ("ja", "ja-JP-NanamiNeural"),
   ("ko", "ko-KR-SunHiNeural"),
   ("fr", "fr-FR-DeniseNeural"),
   ("de", "de-DE-KatjaNeural"),
   ("es", "es-ES-ElviraNeural"),
   ("ru", "ru-RU-SvetlanaNeural")]

/-- Embeds `TranslationConfig` (the fields the claims touch). -/
structure TranslationConfig where
  source_language : String
  target_language : String
  model_name : String
deriving DecidableEq, Repr

/-- Embeds `TTSConfig` (the field the claims touch). -/
structure TTSConfig where
  voice : String
deriving DecidableEq, Repr

/-- Embeds `SystemConfig`: the configuration store. -/
structure SystemConfig where
  translation : TranslationConfig
  tts : TTSConfig
  translation_models : List (String × String)
  tts_voices : List (String × String)
deriving DecidableEq, Repr

/-- The configuration store as built by `SystemConfig.__init__` with the
dataclass defaults. -/
def initialSystemConfig : SystemConfig :=
  { translation :=
      { source_language := "zh"
        target_language := "en"
        model_name := "Helsinki-NLP/opus-mt-zh-en" }
    tts := { voice := "en-US-AriaNeural" }
    translation_models := defaultTranslationModels
    tts_voices := defaultTTSVoices }

/-- Embeds `SystemConfig.get_translation_model`: look the pair key up in the table,
falling back to the templated Helsinki-NLP identifier. -/
def SystemConfig.get_translation_model (cfg : SystemConfig)
    (source_lang target_lang : String) : String :=
  let lang_pair := source_lang ++ "-" ++ target_lang
  (cfg.translation_models.lookup lang_pair).getD
    ("Helsinki-NLP/opus-mt-" ++ source_lang ++ "-" ++ target_lang)

/-- Embeds `SystemConfig.get_tts_voice`. -/
def SystemConfig.get_tts_voice (cfg : SystemConfig) (language : String) : String :=
  (cfg.tts_voices.lookup language).getD ("en-US-AriaNeural")

/-- Embeds `SystemConfig.update_language_pair`: store the pair, the looked-up
translation model identifier and the target language's TTS voice. -/
def SystemConfig.update_language_pair (cfg : SystemConfig)
    (source_lang target_lang : String) : SystemConfig :=
  { cfg with
    translation :=
      { source_language := source_lang
        target_language := target_lang
        model_name := cfg.get_translation_model source_lang target_lang }
    tts := { voice := cfg.get_tts_voice target_lang } }

/-- Python `str.split(sep)` for a one-character separator, on the character
list of the string. -/
def splitOnChar (sep : Char) : List Char → List (List Char)
  | [] => [[]]
  | c :: cs =>
    let r := splitOnChar sep cs
    if c = sep then [] :: r
    else
      match r with
      | [] => [[c]]
      | h :: t => (c :: h) :: t

/-- Python `string.split(sep)` for a one-character separator. -/
def pySplit (sep : Char) (s : String) : List String :=
  (splitOnChar sep s.data).map String.mk

/-- Python's code-point order on character lists (the order `sorted` uses). -/
def charsLtB : List Char → List Char → Bool
  | [], [] => false
  | [], _ :: _ => true
  | _ :: _, [] => false
  | a :: as, b :: bs =>
    if a.toNat < b.toNat then true
    else if b.toNat < a.toNat then false
    else charsLtB as bs

/-- Python's code-point order on strings. -/
def strLtB (a b : String) : Bool := charsLtB a.data b.data

/-- Insert into a sorted duplicate-free list, keeping it sorted and
duplicate-free; folding this over a collection computes Python's
`sorted(list(set(collection)))`. -/
def insertSortedU (a : String) : List String → List String
  | [] => [a]
  | b :: bs =>
    if a = b then b :: bs
    else if strLtB a b then a :: b :: bs
    else b :: insertSortedU a bs

/-- Embeds `SystemConfig.get_supported_languages`: split every table key on the dash
(the code unpacks each split into exactly a source and a target name, so
`none` models the `ValueError` raised when some key does not split in two)
and return all collected codes sorted and without duplicates. -/
def SystemConfig.get_supported_languages (cfg : SystemConfig) :
    Option (List String) :=
  let parts := cfg.translation_models.map (fun kv => pySplit '-' kv.1)
  if parts.all (fun l => l.length = 2) then
    some (parts.flatten.foldl (fun acc a => insertSortedU a acc) [])
  else none

/-- Embeds `TranslationSystemUI.initialize_system` (src/main.py lines 149-151): the
same-language fallback the main UI applies to the chosen pair before it
configures the system. -/
def resolve_language_pair (source_lang target_lang : String) : String × String :=
  if source_lang = target_lang then ("zh", "en") else (source_lang, target_lang)

/-! ## Shared text helpers (Python string semantics) -/

/-- Characters Python's `str.strip()` removes (the ASCII whitespace class;
the inputs the system handles contain no other Unicode whitespace). -/
def pyIsSpace (c : Char) : Bool :=
  c = ' ' || c = '\t' || c = '\n' || c = '\r' || c = '\x0b' || c = '\x0c'

/-- Python `str.strip()`. -/
def pyStrip (s : List Char) : List Char :=
  ((s.dropWhile pyIsSpace).reverse.dropWhile pyIsSpace).reverse

/-- The sentence-ending marks of the regex class `[.!?。！？]` used by the
translator module. -/
def sentence_ender (c : Char) : Bool :=
  c = '.' || c = '!' || c = '?' || c = '。' || c = '！' || c = '？'

/-- Models `re.search(r'[.!?。！？]$', s)` on a string with no trailing newline
(the code applies it to `new_text.strip()`, which never ends in a newline):
the last character is a sentence-ending mark. -/
def endsWithSentenceEnder (s : List Char) : Bool :=
  match s.getLast? with
  | some c => sentence_ender c
  | none => false

/-- Python `s.rfind(' ', 0, end)`: the largest index below `end` (and in
range) holding a space, or `-1` when there is none. -/
def pyRfindSpace (s : List Char) : Nat → Int
  | 0 => -1
  | e + 1 => if s.getD e 'x' = ' ' then (e : Int) else pyRfindSpace s e

/-- Python slice `s[i:]` with an `Int` index: a negative index counts from
the end, clamped at the start of the string. -/
def pySliceFrom (s : List Char) (i : Int) : List Char :=
  if i < 0 then s.drop (((s.length : Int) + i).toNat) else s.drop i.toNat

/-- Python slice `s[-k:]`: the last `k` characters, except that `k = 0`
yields the whole string (`s[-0:]` is `s[0:]`). -/
def pySliceLast (s : List Char) (k : Nat) : List Char :=
  if k = 0 then s else s.drop (s.length - k)

/-! ## Model manager (src/models/model_manager.py)

The caches `_model_cache` and `_tokenizer_cache` are modelled by their key
sets (association-list values play no role in the claims); `model_status`,
the download bookkeeping and the external Transformers/FunASR loads are
summarized by a boolean oracle saying whether the whole download-and-load
sequence succeeded (on any failure the `except` arm returns `None` without
touching the caches). -/

/-- The key set of a Python dict after `d[k] = v`. -/
def dictInsertKey (k : String) (cache : List String) : List String :=
  if k ∈ cache then cache else k :: cache

/-- The in-memory cache state of `ModelManager`. -/
structure ModelManagerState where
  model_cache : List String
  tokenizer_cache : List String
deriving DecidableEq, Repr

/-- Embeds `ModelManager.load_funasr_model`: serve a cache hit unless
`force_reload`; otherwise download/load (outcome `load_ok`) and cache the
model under `funasr:<name>` on success. The returned boolean says whether a
model (not `None`) was returned. -/
def ModelManagerState.load_funasr_model (s : ModelManagerState)
    (model_name : String) (force_reload load_ok : Bool) :
    ModelManagerState × Bool :=
  let cache_key := "funasr:" ++ model_name
  if ¬ force_reload ∧ cache_key ∈ s.model_cache then (s, true)
  else if load_ok then
    ({ s with model_cache := dictInsertKey cache_key s.model_cache }, true)
  else (s, false)

/-- Result of `load_translation_model`: either a pair was returned (`true`
for a model/tokenizer pair, `false` for the `(None, None)` failure pair), or
the unguarded cache-hit lookup `self._tokenizer_cache[tokenizer_key]`
raised `KeyError`. -/
inductive LoadTranslationResult where
  | returned : Bool → LoadTranslationResult
  | keyError : LoadTranslationResult
deriving DecidableEq, Repr

/-- Embeds `ModelManager.load_translation_model`: on a cache hit the model is read
from `_model_cache` and the tokenizer from `_tokenizer_cache` with no
presence check; on a miss, download/load (outcome `load_ok`) and cache the
model under `transformers:<name>` and the tokenizer under
`tokenizer:<name>` together on success. -/
def ModelManagerState.load_translation_model (s : ModelManagerState)
    (model_name : String) (force_reload load_ok : Bool) :
    ModelManagerState × LoadTranslationResult :=
  let cache_key := "transformers:" ++ model_name
  let tokenizer_key := "tokenizer:" ++ model_name
  if ¬ force_reload ∧ cache_key ∈ s.model_cache then
    if tokenizer_key ∈ s.tokenizer_cache then (s, .returned true)
    else (s, .keyError)
  else if load_ok then
    ({ model_cache := dictInsertKey cache_key s.model_cache
       tokenizer_cache := dictInsertKey tokenizer_key s.tokenizer_cache },
     .returned true)
  else (s, .returned false)

/-- Embeds `ModelManager.clear_cache`: empty both caches. -/
def ModelManagerState.clear_cache (_ : ModelManagerState) : ModelManagerState :=
  { model_cache := [], tokenizer_cache := [] }

/-- Embeds `ModelManager.preload_models`: walk the `models_config` entries, loading
FunASR models for the `asr`/`vad`/`punc` kinds and translation models for
`translation`, ignoring other kinds; each entry carries its load outcome. -/
def ModelManagerState.preload_models (s : ModelManagerState) :
    List (String × String × Bool) → ModelManagerState
  | [] => s
  | (model_type, model_name, load_ok) :: rest =>
    let s' :=
      if model_type ∈ ["asr", "vad", "punc"] then
        (s.load_funasr_model model_name false load_ok).1
      else if model_type = "translation" then
        (s.load_translation_model model_name false load_ok).1
      else s
    s'.preload_models rest

/-- The cache-pairing invariant of the model manager: a translation model is
cached exactly when its tokenizer is. -/
def ModelManagerState.CacheInv (s : ModelManagerState) : Prop :=
  ∀ name : String,
    ("transformers:" ++ name) ∈ s.model_cache ↔
      ("tokenizer:" ++ name) ∈ s.tokenizer_cache

/-! ## Incremental translation strategy (src/modules/translator.py) -/

/-- Embeds `SimulTransStrategy` (its mutable state and parameters; the
`translated_cache` field plays no part in the claims). -/
structure SimulTransStrategy where
  chunk_size : Nat
  overlap : Nat
  previous_context : List Char
deriving DecidableEq, Repr

/-- Embeds `SimulTransStrategy.should_translate`: translate when the text is final,
has reached `chunk_size` characters, or contains a sentence-ending mark. -/
def SimulTransStrategy.should_translate (st : SimulTransStrategy)
    (text : List Char) (is_final : Bool) : Bool :=
  if is_final then true
  else if st.chunk_size ≤ text.length then true
  else if text.any sentence_ender then true
  else false

/-- Embeds `SimulTransStrategy.prepare_text_for_translation`, returning the text to
translate (or `none`) together with the updated strategy state. -/
def SimulTransStrategy.prepare_text_for_translation (st : SimulTransStrategy)
    (new_text : List Char) (is_final : Bool) :
    Option (List Char) × SimulTransStrategy :=
  if ¬ st.should_translate new_text is_final then (none, st)
  else if is_final || endsWithSentenceEnder (pyStrip new_text) then
    (some new_text, { st with previous_context := [] })
  else
    let text₀ := st.previous_context ++ new_text
    let text₁ :=
      if st.chunk_size + st.overlap < text₀.length then
        let cutoff₀ : Int := (st.chunk_size : Int)
        let space_pos := pyRfindSpace text₀ st.chunk_size
        let cutoff := if cutoff₀ - 20 < space_pos then space_pos else cutoff₀
        pySliceFrom text₀ cutoff
      else text₀
    let ctx :=
      if st.overlap < text₁.length then pySliceLast text₁ st.overlap else text₁
    (some text₁, { st with previous_context := ctx })

/-- The largest index below `end` holding a space — the nearest space
preceding a cut point — as an `Option`. -/
def lastSpaceBefore (s : List Char) : Nat → Option Nat
  | 0 => none
  | e + 1 => if s.getD e 'x' = ' ' then some e else lastSpaceBefore s e

/-- The claim's description of `prepare_text_for_translation`, written from
the specification's words: no value when `should_translate` is false; the
text verbatim with the context reset when final or ending in a
sentence-ending mark; otherwise the stored context prepended to the new
text, truncated from the front at `chunk_size` characters when the combined
length exceeds `chunk_size + overlap`, the cut point moved back to the
nearest preceding space when one lies within 20 characters, and the last
`overlap` characters (or the whole text if shorter) stored as next context. -/
def SimulTransStrategy.prepareTextSpec (st : SimulTransStrategy)
    (new_text : List Char) (is_final : Bool) :
    Option (List Char) × SimulTransStrategy :=
  if ¬ st.should_translate new_text is_final then (none, st)
  else if is_final || endsWithSentenceEnder (pyStrip new_text) then
    (some new_text, { st with previous_context := [] })
  else
    let combined := st.previous_context ++ new_text
    let chunk :=
      if st.chunk_size + st.overlap < combined.length then
        let cut :=
          match lastSpaceBefore combined st.chunk_size with
          | some p => if st.chunk_size - p < 20 then p else st.chunk_size
          | none => st.chunk_size
        combined.drop cut
      else combined
    let ctx :=
      if chunk.length ≤ st.overlap then chunk
      else chunk.drop (chunk.length - st.overlap)
    (some chunk, { st with previous_context := ctx })

/-! ## Audio capture (src/modules/audio_capture.py)

Only the buffer length matters to `process_asr_buffer`'s control flow, so
the speech buffer is modelled by its sample count; the ASR streaming cache
is an opaque list whose only distinguished value is the fresh empty cache
`[]`; the external FunASR calls are an oracle supplying the recognized text
and the cache contents the `generate` call leaves behind (the oracle is
total — the `except` arm that would catch an exception from a model call is
not exercised). -/

/-- The outcome of the external FunASR calls made during one
`process_asr_buffer` call. -/
structure AsrOracle where
  asr_text : String
  asr_cache_after : List Nat
  punc : String → String

/-- The state of `AudioCaptureModule` that `process_asr_buffer` touches. -/
structure AudioCaptureState where
  asr_present : Bool
  punc_present : Bool
  use_punctuation : Bool
  asr_chunk_samples : Nat
  speech_buffer : Nat
  current_sentence : String
  complete_transcript : String
  asr_cache : List Nat
deriving Repr

/-- Embeds `AudioCaptureModule.process_asr_buffer`, returning the new state and the
`(text, is_final)` reports emitted through the text callback. -/
def AudioCaptureState.process_asr_buffer (s : AudioCaptureState)
    (o : AsrOracle) (is_final : Bool) :
    AudioCaptureState × List (String × Bool) :=
  if ¬ s.asr_present then (s, [])
  else if s.speech_buffer = 0 ∧ is_final then
    if s.current_sentence ≠ "" then
      let final_text :=
        if s.use_punctuation ∧ s.punc_present then
          let pr := o.punc s.current_sentence
          if pr ≠ "" then pr else s.current_sentence
        else s.current_sentence
      ({ s with
          complete_transcript := s.complete_transcript ++ final_text ++ " "
          current_sentence := ""
          asr_cache := [] },
       [(final_text, true)])
    else (s, [])
  else if ¬ is_final ∧ s.speech_buffer < s.asr_chunk_samples then (s, [])
  else
    let chunk_len := if is_final then s.speech_buffer else s.asr_chunk_samples
    let s₁ :=
      { s with
          speech_buffer :=
            if is_final then 0 else s.speech_buffer - s.asr_chunk_samples }
    let step :=
      if 0 < chunk_len then
        -- the `generate` call mutates the streaming cache in place
        let s₂ := { s₁ with asr_cache := o.asr_cache_after }
        let segment_text := o.asr_text
        if segment_text ≠ "" then
          if s.use_punctuation ∧ s.punc_present ∧ is_final then
            let full_input := s.current_sentence ++ segment_text
            let pr := o.punc full_input
            let final_text := if pr ≠ "" then pr else full_input
            ({ s₂ with
                complete_transcript :=
                  s₂.complete_transcript ++ final_text ++ " "
                current_sentence := "" },
             [(final_text, true)])
          else if ¬ is_final then
            let cur := s.current_sentence ++ segment_text
            ({ s₂ with current_sentence := cur }, [(cur, false)])
          else
            let final_text := s.current_sentence ++ segment_text
            ({ s₂ with
                complete_transcript :=
                  s₂.complete_transcript ++ final_text ++ " "
                current_sentence := "" },
             [(final_text, true)])
        else (s₂, [])
      else if is_final ∧ s.current_sentence ≠ "" then
        -- the `elif` fallback for a final call with an empty chunk (dead in
        -- practice: a final call with a non-empty buffer yields a non-empty
        -- chunk, and one with an empty buffer is handled above)
        let final_text :=
          if s.use_punctuation ∧ s.punc_present then
            let pr := o.punc s.current_sentence
            if pr ≠ "" then pr else s.current_sentence
          else s.current_sentence
        ({ s₁ with
            complete_transcript := s₁.complete_transcript ++ final_text ++ " "
            current_sentence := "" },
         [(final_text, true)])
      else (s₁, [])
    let s₃ := step.1
    (if is_final then { s₃ with asr_cache := [] } else s₃, step.2)

/-! ## Text-to-speech module (src/modules/text_to_speech.py)

Edge-TTS synthesis and pygame playback are external; their outcomes are
oracle parameters. Playback-status reports are returned as a list of
`(text, is_playing)` events in emission order. -/

/-- The state of `TextToSpeechModule` the claims touch. -/
structure TextToSpeechState where
  is_mixer_initialized : Bool
  is_playing : Bool
  current_text : String
deriving DecidableEq, Repr

/-- How the pygame playback inside `_play_audio_from_memory`'s `try` block
went: it completed, or it raised before the "playing" status had been
reported (e.g. creating the memory buffer), or it raised after. -/
inductive PlayOutcome where
  | completed
  | raisedBeforePlayingReport
  | raisedAfterPlayingReport
deriving DecidableEq, Repr

/-- Embeds `TextToSpeechModule._initialize_mixer`: a no-op once initialized;
otherwise the pygame mixer init succeeds (oracle `init_ok`) or fails. -/
def TextToSpeechState.initialize_mixer (s : TextToSpeechState)
    (init_ok : Bool) : TextToSpeechState × Bool :=
  if s.is_mixer_initialized then (s, true)
  else if init_ok then ({ s with is_mixer_initialized := true }, true)
  else (s, false)

/-- Embeds `TextToSpeechModule._play_audio_from_memory`: bail out if the mixer
cannot be initialized; otherwise report "playing", play, and report
"finished" — the `except` arm also clears `is_playing` and reports
"finished". Only the state after the call and the emitted reports are
modelled (the transient `is_playing := true` inside the call is not
observable in this sequential model). -/
def TextToSpeechState.play_audio_from_memory (s : TextToSpeechState)
    (text : String) (init_ok : Bool) (outcome : PlayOutcome) :
    TextToSpeechState × List (String × Bool) :=
  let init := s.initialize_mixer init_ok
  if ¬ init.2 then (init.1, [])
  else
    match outcome with
    | .completed =>
      ({ init.1 with is_playing := false, current_text := "" },
       [(text, true), (text, false)])
    | .raisedAfterPlayingReport =>
      ({ init.1 with is_playing := false, current_text := "" },
       [(text, true), (text, false)])
    | .raisedBeforePlayingReport =>
      ({ init.1 with is_playing := false, current_text := "" },
       [(text, false)])

/-- Embeds `TextToSpeechModule.stop_current_playback`: when playing, stop the
mixer, clear the flag and report "finished" for the interrupted text. -/
def TextToSpeechState.stop_current_playback (s : TextToSpeechState) :
    TextToSpeechState × List (String × Bool) :=
  if s.is_playing then
    ({ s with is_playing := false, current_text := "" },
     if s.current_text ≠ "" then [(s.current_text, false)] else [])
  else (s, [])

/-- The `None.strip()` failure mode of `speak_immediate`: Python raises
`AttributeError` when the text argument is `None`. -/
inductive PyError where
  | attributeError
deriving DecidableEq, Repr

/-- Embeds `TextToSpeechModule.speak_immediate` on an optional text (`none` models
Python's `None`): the guard `if not text.strip()` runs before the
`try` block, so a `none` text raises; a blank text returns `false`; otherwise
current playback is stopped, speech is synthesized (`synth_ok` is the
truthiness of the returned audio data — `_synthesize_speech` catches its own
errors and returns `None` on failure), and on synthesis success the audio is
played and `true` is returned. The result carries the final state, the
emitted playback reports, and the returned boolean. -/
def TextToSpeechState.speak_immediate (s : TextToSpeechState)
    (text : Option String) (synth_ok init_ok : Bool) (outcome : PlayOutcome) :
    Except PyError (TextToSpeechState × List (String × Bool) × Bool) :=
  match text with
  | none => .error .attributeError
  | some t =>
    if pyStrip t.data = [] then .ok (s, [], false)
    else
      let stopped := s.stop_current_playback
      if synth_ok then
        let played := stopped.1.play_audio_from_memory t init_ok outcome
        .ok (played.1, stopped.2 ++ played.2, true)
      else .ok (stopped.1, stopped.2, false)

/-! ## Pipeline coordinator (src/modules/pipeline.py)

The coordinator's state carries the observable flags of its three module
services. The module-service start calls follow the guard structure of
`TranslationModule.start_translation_service` (hit when already running;
failure when no model is loaded), `TextToSpeechModule.start_tts_service`
(failure when the pygame mixer cannot initialize, oracle `mixer_ok`) and
`AudioCaptureModule.start_capture` (failure when the sounddevice stream
cannot start, oracle `stream_ok`, which resets the module's running flag). -/

/-- The bound `max_context_items` on the recent-translations context. -/
def maxContextItems : Nat := 5

/-- The coordinator state the claims touch. `current_session` holds the
active session's `total_translations` counter when a session exists. -/
structure PipelineState where
  is_initialized : Bool
  is_running : Bool
  current_session : Option Nat
  sessions_count : Nat
  translation_model_loaded : Bool
  translation_running : Bool
  tts_running : Bool
  audio_running : Bool
  tts_present : Bool
  recent_translations : List String
deriving DecidableEq, Repr

/-- Embeds `TranslationModule.start_translation_service`. -/
def PipelineState.translation_service_start (s : PipelineState) :
    PipelineState × Bool :=
  if s.translation_running then (s, true)
  else if ¬ s.translation_model_loaded then (s, false)
  else ({ s with translation_running := true }, true)

/-- Embeds `TextToSpeechModule.start_tts_service`. -/
def PipelineState.tts_service_start (s : PipelineState) (mixer_ok : Bool) :
    PipelineState × Bool :=
  if s.tts_running then (s, true)
  else if mixer_ok then ({ s with tts_running := true }, true)
  else (s, false)

/-- Embeds `AudioCaptureModule.start_capture`. -/
def PipelineState.audio_capture_start (s : PipelineState) (stream_ok : Bool) :
    PipelineState × Bool :=
  if s.audio_running then (s, true)
  else if stream_ok then ({ s with audio_running := true }, true)
  else ({ s with audio_running := false }, false)

/-- Embeds `RealTimeTranslationPipeline.stop_translation`: a no-op unless
`is_running`; otherwise stop the three module services, close the session
and clear the running flag. -/
def PipelineState.stop_translation (s : PipelineState) : PipelineState :=
  if ¬ s.is_running then s
  else
    { s with
        audio_running := false
        translation_running := false
        tts_running := false
        current_session := none
        is_running := false }

/-- Embeds `RealTimeTranslationPipeline.start_translation`: refuse when not
initialized, no-op when already running; otherwise open a session and start
the translation service, the TTS service and audio capture in that order,
calling `stop_translation` and returning `false` when a step fails. -/
def PipelineState.start_translation (s : PipelineState)
    (mixer_ok stream_ok : Bool) : PipelineState × Bool :=
  if ¬ s.is_initialized then (s, false)
  else if s.is_running then (s, true)
  else
    let s₀ := { s with current_session := some 0 }
    let t := s₀.translation_service_start
    if ¬ t.2 then (t.1.stop_translation, false)
    else
      let u := t.1.tts_service_start mixer_ok
      if ¬ u.2 then (u.1.stop_translation, false)
      else
        let a := u.1.audio_capture_start stream_ok
        if ¬ a.2 then (a.1.stop_translation, false)
        else
          ({ a.1 with
              is_running := true
              sessions_count := a.1.sessions_count + 1 },
           true)

/-- Embeds `RealTimeTranslationPipeline._on_translation_result`: bump the active
session's translation counter on a final result, cache final non-blank
results in the bounded recent-translations context, and forward final
non-blank text to the TTS module at normal priority. The returned list
holds the `(text, priority)` arguments of the `speak` calls made. -/
def PipelineState.on_translation_result (s : PipelineState)
    (translated_text : String) (is_final : Bool) :
    PipelineState × List (String × String) :=
  let s₁ :=
    if is_final then { s with current_session := s.current_session.map (· + 1) }
    else s
  let stripped := String.mk (pyStrip translated_text.data)
  let s₂ :=
    if is_final ∧ stripped ≠ "" then
      let r := s₁.recent_translations ++ [stripped]
      { s₁ with
          recent_translations :=
            if maxContextItems < r.length then r.drop 1 else r }
    else s₁
  let speaks :=
    if s.tts_present ∧ is_final ∧ stripped ≠ "" then [(translated_text, "normal")]
    else []
  (s₂, speaks)

/-! ## Concrete states used by the claim checks -/

/-- An initialized, not-yet-running coordinator whose modules are all idle
and whose translation model is loaded. -/
def pipelineReadyState : PipelineState :=
  { is_initialized := true
    is_running := false
    current_session := none
    sessions_count := 0
    translation_model_loaded := true
    translation_running := false
    tts_running := false
    audio_running := false
    tts_present := true
    recent_translations := [] }

/-- A freshly constructed TTS module: mixer untouched, nothing playing. -/
def ttsIdleState : TextToSpeechState :=
  { is_mixer_initialized := false, is_playing := false, current_text := "" }

/-- An ASR oracle whose `generate` produces no text and an empty cache and
whose punctuation model echoes its input. -/
def trivialAsrOracle : AsrOracle :=
  { asr_text := "", asr_cache_after := [], punc := fun t => t }

/-- An audio-capture state about to receive a final flush with an empty
speech buffer and no leftover sentence, while the ASR streaming cache still
holds data from earlier `generate` calls (which mutate the cache even when
they recognize no text). -/
def audioIdleFlushState : AudioCaptureState :=
  { asr_present := true
    punc_present := true
    use_punctuation := true
    asr_chunk_samples := 9600
    speech_buffer := 0
    current_sentence := ""
    complete_transcript := ""
    asr_cache := [1] }

/-- An audio-capture state with buffered speech and a non-empty streaming
cache. -/
def audioPendingFlushState : AudioCaptureState :=
  { audioIdleFlushState with speech_buffer := 4800, asr_cache := [7, 7] }

/-- A model manager with empty caches. -/
def emptyModelManagerState : ModelManagerState :=
  { model_cache := [], tokenizer_cache := [] }

/-- A running coordinator with an active session and some cached context. -/
def pipelineSessionState : PipelineState :=
  { pipelineReadyState with
      is_running := true
      current_session := some 2
      recent_translations := ["a", "b"] }

/-- A small strategy instance (chunk size 20, overlap 1, empty context). -/
def simulDemoStrategy : SimulTransStrategy :=
  { chunk_size := 20, overlap := 1, previous_context := [] }

/-! ## Helper lemmas -/

theorem string_data_append (x y : String) : (x ++ y).data = x.data ++ y.data :=
  rfl

theorem string_append_left_cancel {p a b : String} (h : p ++ a = p ++ b) :
    a = b := by
  have h' := congrArg String.data h
  rw [string_data_append, string_data_append] at h'
  exact String.ext (List.append_cancel_left h')

theorem transformers_key_ne_funasr_key (a b : String) :
    ("transformers:" ++ a) ≠ ("funasr:" ++ b) := by
  intro h
  have h' := congrArg String.data h
  simp only [string_data_append] at h'
  simp at h'

theorem mem_dictInsertKey {k k' : String} {c : List String} :
    k' ∈ dictInsertKey k c ↔ k' = k ∨ k' ∈ c := by
  unfold dictInsertKey
  split_ifs with h
  · constructor
    · exact fun hm => Or.inr hm
    · rintro (rfl | hm)
      · exact h
      · exact hm
  · simp [List.mem_cons]

/-! ## Claim checks -/

/-- Claim C1: a failing sub-step of `start_translation` is claimed to roll
everything back so that no module service is left running. The code violates
this: when the translation service starts and the TTS service start then
fails, `start_translation` returns `false` and calls `stop_translation`, but
the `if not self.is_running: return` guard makes that rollback a no-op
(`is_running` is still false during a failed start), so the translation
service stays running and the session record stays set. -/
theorem C1_start_translation_failed_rollback_leaves_translation_running :
    (pipelineReadyState.start_translation false true).2 = false
    ∧ ((pipelineReadyState.start_translation false true).1).is_running = false
    ∧ ((pipelineReadyState.start_translation false true).1).translation_running
        = true
    ∧ ((pipelineReadyState.start_translation false true).1).current_session
        = some 0 := by
  decide

/-- Claim C2 (counterexample): `update_language_pair("en","en")` leaves the
stored model identifier equal to the degenerate templated form, not the
zh-en pair's identifier — the same-language fallback is not applied by the
configuration operation. -/
theorem C2_counterexample :
    (initialSystemConfig.update_language_pair ("en") ("en")).translation.model_name
        ≠ "Helsinki-NLP/opus-mt-zh-en"
    ∧ (initialSystemConfig.update_language_pair ("en") ("en")).translation.model_name
        = "Helsinki-NLP/opus-mt-en-en" := by
  decide

/-- Claim C2 (amended): for every supported language code `L`,
`update_language_pair(L, L)` stores the templated degenerate identifier
`Helsinki-NLP/opus-mt-L-L`; the fallback of a same-language pair to
(`zh`, `en`) is applied by the main UI (`initialize_system`, modelled by
`resolve_language_pair`) before it configures the pair, not by the
configuration operation itself. -/
theorem C2_update_language_pair_same_language (L : String)
    (hL : L ∈ ["zh", "en", "ja", "ko", "fr", "de", "es", "ru"]) :
    (initialSystemConfig.update_language_pair L L).translation.model_name
        = "Helsinki-NLP/opus-mt-" ++ L ++ "-" ++ L
    ∧ resolve_language_pair L L = ("zh", "en") := by
  fin_cases hL <;> exact ⟨by decide, by decide⟩

/-- Witness for the amended claim C2 at `L = "en"`. -/
theorem C2_update_language_pair_same_language_witness :
    "en" ∈ ["zh", "en", "ja", "ko", "fr", "de", "es", "ru"]
    ∧ ((initialSystemConfig.update_language_pair ("en") ("en")).translation.model_name
          = "Helsinki-NLP/opus-mt-" ++ "en" ++ "-" ++ "en"
       ∧ resolve_language_pair ("en") ("en") = ("zh", "en")) :=
  ⟨by decide, C2_update_language_pair_same_language ("en") (by decide)⟩

/-- Claim C3 (counterexample): a final flush with an empty speech buffer and
no leftover sentence text returns without resetting the ASR streaming
cache — the `self.asr_cache = {}` reset is skipped by the early `return`
in the empty-buffer branch when `current_sentence` is empty, so the cache
can stay non-empty. -/
theorem C3_counterexample :
    (audioIdleFlushState.process_asr_buffer trivialAsrOracle true).1.asr_cache
        = [1]
    ∧ audioIdleFlushState.asr_cache ≠ [] := by
  constructor
  · rfl
  · decide

/-- Claim C3 (amended): on a final flush the ASR streaming cache is reset in
every branch except the one where the speech buffer is empty and there is no
leftover sentence text (where the call returns with the cache untouched);
that is, whenever the ASR model is present and the buffer holds samples or a
sentence is pending, the cache is empty afterwards. -/
theorem C3_final_flush_resets_cache (s : AudioCaptureState) (o : AsrOracle)
    (hm : s.asr_present = true)
    (hne : 0 < s.speech_buffer ∨ s.current_sentence ≠ "") :
    (s.process_asr_buffer o true).1.asr_cache = [] := by
  unfold AudioCaptureState.process_asr_buffer
  by_cases hb : s.speech_buffer = 0
  · rcases hne with h0 | hs
    · omega
    · simp [hm, hb, hs]
  · simp [hm, hb]

/-- Witness for the amended claim C3: a final flush with buffered samples
leaves an empty cache. -/
theorem C3_final_flush_resets_cache_witness :
    audioPendingFlushState.asr_present = true
    ∧ (0 < audioPendingFlushState.speech_buffer
        ∨ audioPendingFlushState.current_sentence ≠ "")
    ∧ (audioPendingFlushState.process_asr_buffer trivialAsrOracle true).1.asr_cache
        = [] :=
  ⟨by decide, Or.inl (by decide),
   C3_final_flush_resets_cache audioPendingFlushState trivialAsrOracle
     (by decide) (Or.inl (by decide))⟩

/-- Claim C6: `get_translation_model` is total, returns the declared
identifier for each of the eight declared pairs, and returns the templated
`Helsinki-NLP/opus-mt-<source>-<target>` identifier for every pair missing
from the table. -/
theorem C6_get_translation_model_lookup :
    (initialSystemConfig.get_translation_model ("zh") ("en")
        = "Helsinki-NLP/opus-mt-zh-en"
     ∧ initialSystemConfig.get_translation_model ("en") ("zh")
        = "Helsinki-NLP/opus-mt-en-zh"
     ∧ initialSystemConfig.get_translation_model ("zh") ("ja")
        = "Helsinki-NLP/opus-mt-zh-ja"
     ∧ initialSystemConfig.get_translation_model ("ja") ("zh")
        = "Helsinki-NLP/opus-mt-ja-zh"
     ∧ initialSystemConfig.get_translation_model ("en") ("ja")
        = "Helsinki-NLP/opus-mt-en-ja"
     ∧ initialSystemConfig.get_translation_model ("ja") ("en")
        = "Helsinki-NLP/opus-mt-ja-en"
     ∧ initialSystemConfig.get_translation_model ("zh") ("ko")
        = "Helsinki-NLP/opus-mt-zh-ko"
     ∧ initialSystemConfig.get_translation_model ("ko") ("zh")
        = "Helsinki-NLP/opus-mt-ko-zh")
    ∧ ∀ source_lang target_lang : String,
        defaultTranslationModels.lookup (source_lang ++ "-" ++ target_lang) = none →
        initialSystemConfig.get_translation_model source_lang target_lang
          = "Helsinki-NLP/opus-mt-" ++ source_lang ++ "-" ++ target_lang := by
  refine ⟨by decide, ?_⟩
  intro source_lang target_lang h
  simp [SystemConfig.get_translation_model, initialSystemConfig, h]

/-- Witness for claim C6 on the undeclared pair (`fr`, `ru`). -/
theorem C6_get_translation_model_lookup_witness :
    defaultTranslationModels.lookup ("fr" ++ "-" ++ "ru") = none
    ∧ initialSystemConfig.get_translation_model ("fr") ("ru")
        = "Helsinki-NLP/opus-mt-" ++ "fr" ++ "-" ++ "ru" :=
  ⟨by decide, C6_get_translation_model_lookup.2 ("fr") ("ru") (by decide)⟩

/-- Claim C7 (counterexample): for the default eight-pair table
`get_supported_languages` returns only the four codes actually occurring in
the table keys — `fr`, `de`, `es`, `ru` are not in the returned list, so the
list is not the claimed canonical eight-language set. -/
theorem C7_counterexample :
    initialSystemConfig.get_supported_languages = some ["en", "ja", "ko", "zh"]
    ∧ "fr" ∉ ["en", "ja", "ko", "zh"]
    ∧ "de" ∉ ["en", "ja", "ko", "zh"]
    ∧ "es" ∉ ["en", "ja", "ko", "zh"]
    ∧ "ru" ∉ ["en", "ja", "ko", "zh"] := by
  decide

/-- Claim C7 (amended): `get_supported_languages` returns the sorted,
deduplicated list of the language codes appearing as source or target in
the table keys; for the default eight-pair table that list is
`[en, ja, ko, zh]` (not the canonical eight-language set): every code split
out of a table key is in the list, every listed code comes from a key, and
the list is strictly sorted (hence duplicate-free). -/
theorem C7_get_supported_languages_from_table :
    initialSystemConfig.get_supported_languages = some ["en", "ja", "ko", "zh"]
    ∧ (∀ kv ∈ defaultTranslationModels, ∀ l ∈ pySplit '-' kv.1,
        l ∈ ["en", "ja", "ko", "zh"])
    ∧ (∀ l ∈ (["en", "ja", "ko", "zh"] : List String),
        ∃ kv ∈ defaultTranslationModels, l ∈ pySplit '-' kv.1)
    ∧ List.Pairwise (fun a b => strLtB a b = true) ["en", "ja", "ko", "zh"] := by
  decide

/-- Claim C9: blank text makes `speak_immediate` return `false` without
synthesis, but an absent (`None`) text makes it raise `AttributeError` —
the guard `if not text.strip()` runs before the `try` block, contradicting
the module's own test, which asserts `speak_immediate(None)` returns
`false`; moreover a playback error swallowed inside
`_play_audio_from_memory` still yields `true`. -/
theorem C9_speak_immediate_none_raises :
    ttsIdleState.speak_immediate none true true .completed
        = .error .attributeError
    ∧ ttsIdleState.speak_immediate (some "   ") true true .completed
        = .ok (ttsIdleState, [], false)
    ∧ ttsIdleState.speak_immediate (some "hello") true true
        .raisedAfterPlayingReport
        = .ok ({ ttsIdleState with is_mixer_initialized := true },
               [("hello", true), ("hello", false)], true) :=
  ⟨rfl, rfl, rfl⟩

theorem cacheInv_load_funasr (s : ModelManagerState) (h : s.CacheInv)
    (name : String) (force ok : Bool) :
    ((s.load_funasr_model name force ok).1).CacheInv := by
  simp only [ModelManagerState.load_funasr_model]
  split_ifs with h1 h2
  · exact h
  · intro n
    simp only [mem_dictInsertKey]
    constructor
    · rintro (he | hm)
      · exact absurd he (transformers_key_ne_funasr_key n name)
      · exact (h n).mp hm
    · intro ht
      exact Or.inr ((h n).mpr ht)
  · exact h

theorem cacheInv_load_translation (s : ModelManagerState) (h : s.CacheInv)
    (name : String) (force ok : Bool) :
    ((s.load_translation_model name force ok).1).CacheInv := by
  simp only [ModelManagerState.load_translation_model]
  split_ifs with h1 h2 h3
  · exact h
  · exact h
  · intro n
    simp only [mem_dictInsertKey]
    constructor
    · rintro (he | hm)
      · left
        rw [string_append_left_cancel he]
      · exact Or.inr ((h n).mp hm)
    · rintro (he | ht)
      · left
        rw [string_append_left_cancel he]
      · exact Or.inr ((h n).mpr ht)
  · exact h

theorem cacheInv_clear (s : ModelManagerState) : (s.clear_cache).CacheInv := by
  intro n
  simp [ModelManagerState.clear_cache]

theorem cacheInv_preload :
    ∀ (cfg : List (String × String × Bool)) (s : ModelManagerState),
      s.CacheInv → (s.preload_models cfg).CacheInv := by
  intro cfg
  induction cfg with
  | nil => exact fun s h => h
  | cons p tl ih =>
    intro s h
    obtain ⟨mt, mn, ok⟩ := p
    simp only [ModelManagerState.preload_models]
    split_ifs with h1 h2
    · exact ih _ (cacheInv_load_funasr s h mn false ok)
    · exact ih _ (cacheInv_load_translation s h mn false ok)
    · exact ih _ h

theorem load_translation_no_keyError (s : ModelManagerState) (h : s.CacheInv)
    (name : String) (force ok : Bool) :
    (s.load_translation_model name force ok).2
      ≠ LoadTranslationResult.keyError := by
  simp only [ModelManagerState.load_translation_model]
  split_ifs with h1 h2 h3
  · simp
  · exact absurd ((h name).mp h1.2) h2
  · simp
  · simp

/-- Claim C10: every model-manager operation preserves the pairing between
the `transformers:<name>` keys of the model cache and the
`tokenizer:<name>` keys of the tokenizer cache, and under that invariant the
unguarded tokenizer read on `load_translation_model`'s cache-hit path can
never raise `KeyError`. -/
theorem C10_model_manager_cache_pairing (s : ModelManagerState)
    (hInv : s.CacheInv) :
    (∀ name force ok, ((s.load_funasr_model name force ok).1).CacheInv)
    ∧ (∀ name force ok, ((s.load_translation_model name force ok).1).CacheInv)
    ∧ (s.clear_cache).CacheInv
    ∧ (∀ cfg, (s.preload_models cfg).CacheInv)
    ∧ (∀ name force ok, (s.load_translation_model name force ok).2
        ≠ LoadTranslationResult.keyError) :=
  ⟨fun name force ok => cacheInv_load_funasr s hInv name force ok,
   fun name force ok => cacheInv_load_translation s hInv name force ok,
   cacheInv_clear s,
   fun cfg => cacheInv_preload cfg s hInv,
   fun name force ok => load_translation_no_keyError s hInv name force ok⟩

/-- Witness for claim C10 at the empty model manager. -/
theorem C10_model_manager_cache_pairing_witness :
    emptyModelManagerState.CacheInv
    ∧ ((∀ name force ok,
          ((emptyModelManagerState.load_funasr_model name force ok).1).CacheInv)
       ∧ (∀ name force ok,
          ((emptyModelManagerState.load_translation_model name force ok).1).CacheInv)
       ∧ (emptyModelManagerState.clear_cache).CacheInv
       ∧ (∀ cfg, (emptyModelManagerState.preload_models cfg).CacheInv)
       ∧ (∀ name force ok,
          (emptyModelManagerState.load_translation_model name force ok).2
            ≠ LoadTranslationResult.keyError)) :=
  ⟨fun n => by simp [emptyModelManagerState],
   C10_model_manager_cache_pairing emptyModelManagerState
     (fun n => by simp [emptyModelManagerState])⟩

/-- Claim C4: `_play_audio_from_memory` never completes with `is_playing`
still set (given the module invariant that `is_playing` implies the mixer
was initialized, which every reachable state satisfies, since only a
playback that passed mixer initialization sets the flag), and whenever it
reported a "playing" status for the text it also reports a "finished"
status for that same text — including the executions where playback raises. -/
theorem C4_play_audio_never_leaves_playing (s : TextToSpeechState)
    (text : String) (init_ok : Bool) (outcome : PlayOutcome)
    (hinv : s.is_playing = true → s.is_mixer_initialized = true) :
    ((s.play_audio_from_memory text init_ok outcome).1).is_playing = false
    ∧ ((text, true) ∈ (s.play_audio_from_memory text init_ok outcome).2 →
        (text, false) ∈ (s.play_audio_from_memory text init_ok outcome).2) := by
  unfold TextToSpeechState.play_audio_from_memory
    TextToSpeechState.initialize_mixer
  cases hm : s.is_mixer_initialized with
  | true => cases outcome <;> simp [hm]
  | false =>
    cases ho : init_ok with
    | true => cases outcome <;> simp [hm, ho]
    | false =>
      have hp : s.is_playing = false := by
        cases hcase : s.is_playing with
        | false => rfl
        | true => rw [hinv hcase] at hm; cases hm
      simp [hm, ho, hp]

/-- Witness for claim C4: a fresh module whose playback raises mid-play. -/
theorem C4_play_audio_never_leaves_playing_witness :
    (ttsIdleState.is_playing = true → ttsIdleState.is_mixer_initialized = true)
    ∧ (((ttsIdleState.play_audio_from_memory ("hi") true
          .raisedAfterPlayingReport).1).is_playing = false
       ∧ (("hi", true) ∈ (ttsIdleState.play_audio_from_memory ("hi") true
            .raisedAfterPlayingReport).2 →
          ("hi", false) ∈ (ttsIdleState.play_audio_from_memory ("hi") true
            .raisedAfterPlayingReport).2)) :=
  ⟨by decide,
   C4_play_audio_never_leaves_playing ttsIdleState ("hi") true
     .raisedAfterPlayingReport (by decide)⟩

theorem pyRfindSpace_eq (s : List Char) :
    ∀ c, pyRfindSpace s c
      = (match lastSpaceBefore s c with
         | some p => (p : Int)
         | none => -1) := by
  intro c
  induction c with
  | zero => rfl
  | succ e ih =>
    simp only [pyRfindSpace, lastSpaceBefore]
    by_cases h : s.getD e 'x' = ' '
    · rw [if_pos h, if_pos h]
    · rw [if_neg h, if_neg h, ih]

theorem lastSpaceBefore_lt (s : List Char) :
    ∀ c p, lastSpaceBefore s c = some p → p < c := by
  intro c
  induction c with
  | zero => intro p h; simp [lastSpaceBefore] at h
  | succ e ih =>
    intro p h
    by_cases hc : s.getD e 'x' = ' '
    · simp only [lastSpaceBefore, if_pos hc, Option.some.injEq] at h
      omega
    · simp only [lastSpaceBefore, if_neg hc] at h
      exact Nat.lt_succ_of_lt (ih p h)

theorem ctx_update_eq (t : List Char) (ov : Nat) (ho : 1 ≤ ov) :
    (if ov < t.length then pySliceLast t ov else t)
      = (if t.length ≤ ov then t else t.drop (t.length - ov)) := by
  by_cases h : ov < t.length
  · rw [if_pos h, if_neg (by omega)]
    unfold pySliceLast
    rw [if_neg (by omega)]
  · rw [if_neg h, if_pos (by omega)]

theorem pySliceFrom_natCast (t : List Char) (n : Nat) :
    pySliceFrom t (n : Int) = t.drop n := by
  unfold pySliceFrom
  rw [if_neg (by omega)]
  simp

theorem truncation_eq (T : List Char) (chunk ov : Nat) (hc : 20 ≤ chunk) :
    (if chunk + ov < T.length then
       pySliceFrom T
         (if (chunk : Int) - 20 < pyRfindSpace T chunk then pyRfindSpace T chunk
          else (chunk : Int))
     else T)
      = (if chunk + ov < T.length then
           T.drop
             (match lastSpaceBefore T chunk with
              | some p => if chunk - p < 20 then p else chunk
              | none => chunk)
         else T) := by
  by_cases h3 : chunk + ov < T.length
  · rw [if_pos h3, if_pos h3, pyRfindSpace_eq]
    cases hsp : lastSpaceBefore T chunk with
    | none =>
      dsimp only
      rw [if_neg (by omega)]
      exact pySliceFrom_natCast T chunk
    | some p =>
      have hplt : p < chunk := lastSpaceBefore_lt T chunk p hsp
      dsimp only
      by_cases h4 : chunk - p < 20
      · rw [if_pos (by omega), if_pos h4]
        exact pySliceFrom_natCast T p
      · rw [if_neg (by omega), if_neg h4]
        exact pySliceFrom_natCast T chunk
  · rw [if_neg h3, if_neg h3]

/-- Claim C5: `prepare_text_for_translation` behaves exactly as the
specification describes it (`prepareTextSpec`, written from the claim's
words), whenever the strategy's parameters satisfy `20 ≤ chunk_size` (so
that Python's `rfind` sentinel `-1` never passes the
`space_pos > cutoff_point - 20` test) and `1 ≤ overlap` (so that the
`[-overlap:]` slice means "the last `overlap` characters"); the module
instantiates the strategy with chunk size 128 and overlap 32, which
satisfies both. -/
theorem C5_prepare_text_for_translation_matches_spec (st : SimulTransStrategy)
    (new_text : List Char) (is_final : Bool)
    (hc : 20 ≤ st.chunk_size) (ho : 1 ≤ st.overlap) :
    st.prepare_text_for_translation new_text is_final
      = st.prepareTextSpec new_text is_final := by
  simp only [SimulTransStrategy.prepare_text_for_translation,
    SimulTransStrategy.prepareTextSpec]
  by_cases h1 : st.should_translate new_text is_final
  case neg => simp [h1]
  by_cases h2 : (is_final || endsWithSentenceEnder (pyStrip new_text))
  · simp [h1, h2]
  · simp only [h1, h2, eq_self_iff_true, not_true, if_false, if_true]
    rw [truncation_eq (st.previous_context ++ new_text) st.chunk_size
          st.overlap hc,
        ctx_update_eq _ _ ho]

/-- Witness for claim C5 on a small strategy instance and a non-final text
longer than `chunk_size + overlap`. -/
theorem C5_prepare_text_for_translation_matches_spec_witness :
    20 ≤ simulDemoStrategy.chunk_size
    ∧ 1 ≤ simulDemoStrategy.overlap
    ∧ simulDemoStrategy.prepare_text_for_translation
        ("hello world how are you today friend").data false
      = simulDemoStrategy.prepareTextSpec
        ("hello world how are you today friend").data false :=
  ⟨by decide, by decide,
   C5_prepare_text_for_translation_matches_spec simulDemoStrategy
     ("hello world how are you today friend").data false
     (by decide) (by decide)⟩

theorem recents_append_length_le (l : List String) (x : String)
    (h : l.length ≤ 5) :
    (if 5 < (l ++ [x]).length then (l ++ [x]).drop 1 else l ++ [x]).length
      ≤ 5 := by
  by_cases hc : 5 < (l ++ [x]).length
  · rw [if_pos hc]
    simp only [List.length_drop, List.length_append, List.length_cons,
      List.length_nil]
    omega
  · rw [if_neg hc]
    simp only [List.length_append, List.length_cons, List.length_nil] at hc ⊢
    omega

theorem recents_append_last (l : List String) (x : String) :
    (if 5 < (l ++ [x]).length then (l ++ [x]).drop 1 else l ++ [x]).getLast?
      = some x := by
  by_cases hc : 5 < (l ++ [x]).length
  · rw [if_pos hc]
    have hl : 1 ≤ l.length := by
      simp only [List.length_append, List.length_cons, List.length_nil] at hc
      omega
    rw [List.drop_append_of_le_length hl, List.getLast?_concat]
  · rw [if_neg hc, List.getLast?_concat]

theorem recents_append_evict (l : List String) (x : String)
    (h : l.length = 5) :
    (if 5 < (l ++ [x]).length then (l ++ [x]).drop 1 else l ++ [x])
      = l.drop 1 ++ [x] := by
  rw [if_pos (by
    simp only [List.length_append, List.length_cons, List.length_nil]
    omega)]
  exact List.drop_append_of_le_length (by omega)

theorem recents_append_keep (l : List String) (x : String)
    (h : l.length < 5) :
    (if 5 < (l ++ [x]).length then (l ++ [x]).drop 1 else l ++ [x])
      = l ++ [x] := by
  rw [if_neg (by
    simp only [List.length_append, List.length_cons, List.length_nil]
    omega)]

/-- Claim C8: the coordinator's translation-result handler forwards to the
TTS module (at normal priority, with the translated text) exactly the final
non-blank results — interim results are never spoken — increments the active
session's translation counter exactly on final results, and appends final
non-blank results to the recent-translations context bounded at
`maxContextItems` entries with oldest-first eviction. -/
theorem C8_on_translation_result_forwarding (s : PipelineState)
    (translated_text : String) (is_final : Bool) (k : Nat)
    (htts : s.tts_present = true) (hsess : s.current_session = some k) :
    ((s.on_translation_result translated_text is_final).2 ≠ []
        ↔ (is_final = true ∧ String.mk (pyStrip translated_text.data) ≠ ""))
    ∧ (is_final = true → String.mk (pyStrip translated_text.data) ≠ "" →
        (s.on_translation_result translated_text is_final).2
          = [(translated_text, "normal")])
    ∧ ((s.on_translation_result translated_text is_final).1).current_session
        = some (if is_final then k + 1 else k)
    ∧ (s.recent_translations.length ≤ maxContextItems →
        ((s.on_translation_result translated_text is_final).1).recent_translations.length
          ≤ maxContextItems)
    ∧ (is_final = true → String.mk (pyStrip translated_text.data) ≠ "" →
        ((s.on_translation_result translated_text is_final).1).recent_translations.getLast?
            = some (String.mk (pyStrip translated_text.data))
        ∧ (s.recent_translations.length = maxContextItems →
            ((s.on_translation_result translated_text is_final).1).recent_translations
              = s.recent_translations.drop 1
                  ++ [String.mk (pyStrip translated_text.data)])
        ∧ (s.recent_translations.length < maxContextItems →
            ((s.on_translation_result translated_text is_final).1).recent_translations
              = s.recent_translations ++ [String.mk (pyStrip translated_text.data)])) := by
  simp only [PipelineState.on_translation_result, maxContextItems]
  cases is_final with
  | false =>
    simp [hsess]
  | true =>
    by_cases hstr : String.mk (pyStrip translated_text.data) = ""
    · simp [hstr, hsess]
    · refine ⟨?_, ?_, ?_, ?_, ?_⟩
      · simp [htts, hstr]
      · intro _ _
        simp [htts, hstr]
      · simp [hstr, hsess]
      · intro hle
        rw [if_pos (show (true = true)
            ∧ ¬(String.mk (pyStrip translated_text.data) = "") from ⟨rfl, hstr⟩)]
        exact recents_append_length_le _ _ hle
      · intro _ _
        rw [if_pos (show (true = true)
            ∧ ¬(String.mk (pyStrip translated_text.data) = "") from ⟨rfl, hstr⟩)]
        exact ⟨recents_append_last _ _,
               fun h5 => recents_append_evict _ _ h5,
               fun hlt => recents_append_keep _ _ hlt⟩

/-- Witness for claim C8: a running coordinator receiving a final non-blank
translation. -/
theorem C8_on_translation_result_forwarding_witness :
    pipelineSessionState.tts_present = true
    ∧ pipelineSessionState.current_session = some 2
    ∧ (((pipelineSessionState.on_translation_result ("ok then") true).2 ≠ []
        ↔ (true = true ∧ String.mk (pyStrip ("ok then").data) ≠ ""))
       ∧ (true = true → String.mk (pyStrip ("ok then").data) ≠ "" →
           (pipelineSessionState.on_translation_result ("ok then") true).2
             = [("ok then", "normal")])
       ∧ ((pipelineSessionState.on_translation_result ("ok then") true).1).current_session
           = some (if true then 2 + 1 else 2)
       ∧ (pipelineSessionState.recent_translations.length ≤ maxContextItems →
           ((pipelineSessionState.on_translation_result ("ok then") true).1).recent_translations.length
             ≤ maxContextItems)
       ∧ (true = true → String.mk (pyStrip ("ok then").data) ≠ "" →
           ((pipelineSessionState.on_translation_result ("ok then") true).1).recent_translations.getLast?
               = some (String.mk (pyStrip ("ok then").data))
           ∧ (pipelineSessionState.recent_translations.length = maxContextItems →
               ((pipelineSessionState.on_translation_result ("ok then") true).1).recent_translations
                 = pipelineSessionState.recent_translations.drop 1
                     ++ [String.mk (pyStrip ("ok then").data)])
           ∧ (pipelineSessionState.recent_translations.length < maxContextItems →
               ((pipelineSessionState.on_translation_result ("ok then") true).1).recent_translations
                 = pipelineSessionState.recent_translations
                     ++ [String.mk (pyStrip ("ok then").data)]))) :=
  ⟨by decide, by decide,
   C8_on_translation_result_forwarding pipelineSessionState ("ok then") true 2
     (by decide) (by decide)⟩

end RS
